import Mathlib

/-!
Shallow embedding of the pickndel_integration repository (Node/Express glue
code over the PIKNDEL logistics REST API) for checking its natural-language
specification.

Sources embedded:
  * src/services/pikndelService.js — `placeOrder` (validation + body builder),
    `handlePikndelResponse` (status normalisation + token-cache clearing),
    `login`'s token extraction chain, and the Authorization-header attachment
    of the central `request` wrapper.
  * src/routes/orderRoutes.js — `verifyWebhookSecret` middleware and the
    `POST /pikndel/status` webhook handler (logging, STATUS_MAP translation,
    best-effort persistence, unconditional 200 acknowledgement).

JavaScript dynamic values are modelled by the inductive `JSVal`.  JS numbers
are modelled as integers (`Int`): every numeric value appearing in this
development is integer-valued, and no claim depends on non-integer
arithmetic.  Property access on `undefined`/`null` raises a TypeError, which
the embedding models with `Except` (`JsErr.typeErr`); `new Error(...)`
throws from the source are `JsErr.jsError`.  Performing a network call is
modelled by returning an `OutboundRequest` value: a function that returns
`Except.error` before producing an `OutboundRequest` has made no network
call.
-/

/-- A JavaScript runtime value (numbers restricted to integers). -/
inductive JSVal where
  | undefV
  | null
  | bool (b : Bool)
  | num (n : Int)
  | str (s : String)
  | arr (elems : List JSVal)
  | obj (fields : List (String × JSVal))

/-- Association-list lookup used for object property access. -/
def lookupField : List (String × JSVal) → String → Option JSVal
  | [], _ => none
  | (k, v) :: rest, key => if k == key then some v else lookupField rest key

/-- JS truthiness: `undefined`, `null`, `false`, `0` and `""` are falsy;
arrays and objects are always truthy. -/
def truthy : JSVal → Bool
  | .undefV => false
  | .null => false
  | .bool b => b
  | .num n => n != 0
  | .str s => s != ""
  | .arr _ => true
  | .obj _ => true

/-- JS `a || b`. -/
def jsOr (a b : JSVal) : JSVal := if truthy a then a else b

/-- JS `a ?? b` (nullish coalescing). -/
def nullishOr (a b : JSVal) : JSVal :=
  match a with
  | .undefV => b
  | .null => b
  | _ => a

/-- Errors a modelled service function can raise: `jsError` is a thrown
`new Error(msg)` (the validation / token errors of the source), `typeErr`
is a runtime TypeError (property access on `undefined`/`null`). -/
inductive JsErr where
  | jsError (msg : String)
  | typeErr (msg : String)

/-- JS property access `v.key`: throws a TypeError on `undefined`/`null`,
looks the key up on objects, and yields `undefined` on every other value. -/
def getField (v : JSVal) (key : String) : Except JsErr JSVal :=
  match v with
  | .undefV => .error (.typeErr ("Cannot read properties of undefined (reading " ++ key ++ ")"))
  | .null => .error (.typeErr ("Cannot read properties of null (reading " ++ key ++ ")"))
  | .obj fs => .ok ((lookupField fs key).getD .undefV)
  | _ => .ok .undefV

/-- JS optional chaining `v?.key`: like `getField` but yields `undefined`
instead of throwing on `undefined`/`null`. -/
def optChain (v : JSVal) (key : String) : JSVal :=
  match v with
  | .obj fs => (lookupField fs key).getD .undefV
  | _ => .undefV

/-- Pure property read (the value `getField` returns when it does not
throw). -/
def jsGet (v : JSVal) (key : String) : JSVal := optChain v key

/-- `Array.isArray`. -/
def isArray : JSVal → Bool
  | .arr _ => true
  | _ => false

/-- Whether the value is `undefined` or `null` (property access throws). -/
def isNullish : JSVal → Bool
  | .undefV => true
  | .null => true
  | _ => false

/-- Whether the value is a string. -/
def isStr : JSVal → Bool
  | .str _ => true
  | _ => false

/-- Whether the value is a number. -/
def isNum : JSVal → Bool
  | .num _ => true
  | _ => false

/-- JS array indexing `v[i]` (yields `undefined` out of range or on a
non-array). -/
def jsIndex (v : JSVal) (i : Nat) : JSVal :=
  match v with
  | .arr xs => (xs.get? i).getD .undefV
  | _ => .undefV

/-- Length of an array value (0 on a non-array). -/
def arrLength : JSVal → Nat
  | .arr xs => xs.length
  | _ => 0

/-- Whether `v` passes the source's `Array.isArray(v) && v.length !== 0`
checks. -/
def isNonEmptyArr (v : JSVal) : Bool := isArray v && arrLength v != 0

/-- Whether an object value has the key at all (used to formalise the
spec's word "present", as opposed to the code's truthiness tests). -/
def hasField (v : JSVal) (key : String) : Bool :=
  match v with
  | .obj fs => (lookupField fs key).isSome
  | _ => false

mutual
/-- `String()` conversion of a single array element (JS renders `null` and
`undefined` elements as the empty string inside `Array.prototype.toString`). -/
def jsToStringElem : JSVal → String
  | .undefV => ""
  | .null => ""
  | .bool true => "true"
  | .bool false => "false"
  | .num n => toString n
  | .str s => s
  | .arr xs => jsToStringList xs
  | .obj _ => "[object Object]"

/-- Comma-joined rendering of array elements (JS `Array.prototype.join`). -/
def jsToStringList : List JSVal → String
  | [] => ""
  | [x] => jsToStringElem x
  | x :: y :: rest => jsToStringElem x ++ "," ++ jsToStringList (y :: rest)
end

/-- JS `String(v)` conversion. -/
def jsToString : JSVal → String
  | .undefV => "undefined"
  | .null => "null"
  | .bool true => "true"
  | .bool false => "false"
  | .num n => toString n
  | .str s => s
  | .arr xs => jsToStringList xs
  | .obj _ => "[object Object]"

/-- Value of a digit run. -/
def digitsToNat (ds : List Char) : Nat :=
  ds.foldl (fun a c => a * 10 + (c.toNat - 48)) 0

/-- Leading natural-number parse used by the `parseFloat` model. -/
def parseNatPrefix (cs : List Char) : Option Nat :=
  let ds := cs.takeWhile Char.isDigit
  if ds.isEmpty then none else some (digitsToNat ds)

/-- Integer-valued model of JS `parseFloat` applied to a string: skip
leading whitespace, optional sign, then a digit run; `none` models `NaN`.
(The fractional part of the source's floats is outside the integer number
model; every input this development evaluates is integer-valued.) -/
def parseFloatPrefix (s : String) : Option Int :=
  let cs := s.data.dropWhile Char.isWhitespace
  match cs with
  | '-' :: rest => (parseNatPrefix rest).map (fun n => -(n : Int))
  | '+' :: rest => (parseNatPrefix rest).map (fun n => (n : Int))
  | _ => (parseNatPrefix cs).map (fun n => (n : Int))

/-- JS `parseFloat(v)`: the argument is first converted to a string. -/
def parseFloatJS (v : JSVal) : Option Int := parseFloatPrefix (jsToString v)

/-- The source expression `parseFloat(v) || 0`: `NaN` (and `0` itself)
collapse to `0`. -/
def parseFloatOr0 (v : JSVal) : Int := (parseFloatJS v).getD 0

/-!
## pikndelService.js — outbound request plumbing

`request` builds a `Control` envelope (uuid + timestamp, not needed by any
claim), attaches `Authorization: Bearer <cachedToken>` when `auth &&
cachedToken`, sends, and normalises the outcome through
`handlePikndelResponse`.  The mutable module-level `cachedToken` (`null`
initially) is threaded explicitly: each step returns the new cache value.
-/

/-- Provider-call failures thrown by `request` / `handlePikndelResponse`
(the `statusCode` / `pikndelData` properties of the thrown `Error`s are the
constructor's payload). -/
inductive PikErr where
  | badRequest (data : JSVal)
  | unauthorized (data : JSVal)
  | serverError (data : JSVal)
  | unexpected (status : Nat) (data : JSVal)
  | network (path : String) (msg : String)

/-- `handlePikndelResponse` (pikndelService.js lines 85-118): maps the HTTP
status to success or a thrown error; the 401 arm also clears the module's
`cachedToken` (`cachedToken = null`).  Returns the new cache value paired
with the normalised result. -/
def handlePikndelResponse (cachedToken : JSVal) (status : Nat) (data : JSVal) :
    JSVal × Except PikErr JSVal :=
  if status = 200 then (cachedToken, .ok data)
  else if status = 400 then (cachedToken, .error (.badRequest data))
  else if status = 401 then (.null, .error (.unauthorized data))
  else if status = 500 then (cachedToken, .error (.serverError data))
  else (cachedToken, .error (.unexpected status data))

/-- Outcome of the axios send inside `request`: either an HTTP response
(possibly an error status, routed through `handlePikndelResponse` via the
catch's `err.response` branch) or a transport failure with no response. -/
inductive HttpOutcome where
  | response (status : Nat) (data : JSVal)
  | noResponse (msg : String)

/-- The response-handling tail of `request` (pikndelService.js lines 62-78):
a received response goes through `handlePikndelResponse`; a transport
failure throws the network error and leaves the token cache untouched. -/
def requestStep (cachedToken : JSVal) (path : String) (outcome : HttpOutcome) :
    JSVal × Except PikErr JSVal :=
  match outcome with
  | .response status data => handlePikndelResponse cachedToken status data
  | .noResponse msg =>
      (cachedToken, .error (.network path ("Network error calling PIKNDEL [" ++ path ++ "]: " ++ msg)))

/-- The header logic of `request` (lines 53-55): `Authorization` is attached
exactly when `auth && cachedToken` is truthy. -/
def authorizationHeader (auth : Bool) (cachedToken : JSVal) : Option String :=
  if auth && truthy cachedToken then some ("Bearer " ++ jsToString cachedToken) else none

/-!
## login — token extraction (pikndelService.js lines 152-160)
-/

/-- The extraction chain
`response?.Data?.Token || response?.Token || response?.token || response?.access_token`. -/
def extractToken (response : JSVal) : JSVal :=
  jsOr (optChain (optChain response "Data") "Token")
    (jsOr (optChain response "Token")
      (jsOr (optChain response "token") (optChain response "access_token")))

/-- The post-extraction step of `login`: a falsy extraction throws the
TokenMissing error and leaves the cache as it was (the throw happens before
the assignment); a truthy one is stored in `cachedToken` and returned. -/
def loginExtractStep (cachedToken : JSVal) (response : JSVal) :
    JSVal × Except JsErr JSVal :=
  let token := extractToken response
  if truthy token then (token, .ok token)
  else (cachedToken, .error (.jsError "Login succeeded but no JWT token was returned by PIKNDEL."))

/-- First candidate value whose key is literally present on the response,
in the source's candidate order.  This follows the spec's words ("taking
the first present value") rather than the code, to be compared against
`extractToken`. -/
def specFirstPresentToken (response : JSVal) : Option JSVal :=
  if hasField (optChain response "Data") "Token" then some (optChain (optChain response "Data") "Token")
  else if hasField response "Token" then some (optChain response "Token")
  else if hasField response "token" then some (optChain response "token")
  else if hasField response "access_token" then some (optChain response "access_token")
  else none

/-- First truthy value in a candidate list (used to phrase the amended
extraction-order property). -/
def listFirstTruthy (cands : List JSVal) : Option JSVal :=
  cands.find? truthy

/-!
## placeOrder (pikndelService.js lines 188-283)

The validator and the body builder are translated check for check and field
for field.  The builder of a single `OrderDetails` entry is split into
`buildPickup` / `buildItem` / `buildDelivery` helpers mirroring the nested
object literals of lines 223-272; evaluation order of the throwing
property reads matches the source's object-literal evaluation order.
Reaching the returned `OutboundRequest` models handing the body to
`request`; an `Except.error` result means no network call was made.
-/

/-- The outbound call `placeOrder` hands to `request` (path, Control
version, Data-wrapping flag, body).  The Control envelope itself (uuid,
timestamp) is added inside `request` and is not part of any claim. -/
structure OutboundRequest where
  path : String
  version : String
  wrapInData : Bool
  data : JSVal

/-- The `Pickup` object literal (lines 224-244), built from the detail's
`inf` info entry.  The source reads `inf.Pickup.X` nineteen times; every
read throws exactly when the first (`inf.Pickup.Mobile`, on the UniqueNo
line) does — `inf` or `inf.Pickup` nullish — so the later reads are the
pure `jsGet`. -/
def buildPickup (inf : JSVal) : Except JsErr JSVal :=
  match getField inf "Pickup" with
  | .error e => .error e
  | .ok pk =>
  match getField pk "Mobile" with
  | .error e => .error e
  | .ok mobile =>
    .ok (.obj [
      ("UniqueNo", jsOr mobile (.str "")),
      ("PersonName", jsGet pk "PersonName"),
      ("Mobile", mobile),
      ("AddressType", jsOr (jsGet pk "AddressType") (.str "Home")),
      ("HouseNo", jsOr (jsGet pk "HouseNo") (.str "")),
      ("Landmark", jsOr (jsGet pk "Landmark") (.str "")),
      ("Address", jsGet pk "Address"),
      ("Lat", jsOr (jsGet pk "Lat") (.str "")),
      ("Lng", jsOr (jsGet pk "Lng") (.str "")),
      ("Pincode", jsGet pk "Pincode"),
      ("CashPaid", jsOr (jsGet pk "CashPaid") (.str "0")),
      ("CashCollection", jsOr (jsGet pk "CashCollection") (.str "0")),
      ("Comment", jsOr (jsGet pk "Comment") (.str "")),
      ("PickupDate", jsOr (jsGet pk "PickupDate") (.str "")),
      ("PickupSlot", jsOr (jsGet pk "PickupSlot") (.str "")),
      ("RTOName", jsOr (jsGet pk "RTOName") (jsGet pk "PersonName")),
      ("RTOMobile", jsOr (jsGet pk "RTOMobile") mobile),
      ("RTOAddr", jsOr (jsGet pk "RTOAddr") (jsGet pk "Address")),
      ("RTOPincode", jsOr (jsGet pk "RTOPincode") (jsGet pk "Pincode"))])

/-- One entry of the `Item` map (lines 245-257); the first property read
is `item.Qty`, and all reads throw exactly when `item` is nullish. -/
def buildItem (item : JSVal) : Except JsErr JSVal :=
  match getField item "Qty" with
  | .error e => .error e
  | .ok qty =>
    .ok (.obj [
      ("Qty", qty),
      ("Type", jsOr (jsGet item "Type") (.str "Goods")),
      ("IsFragile", .str (jsToString (nullishOr (jsGet item "IsFragile") (.str "0")))),
      ("IsLiquid", .str (jsToString (nullishOr (jsGet item "IsLiquid") (.str "0")))),
      ("Name", jsOr (jsGet item "Name") .null),
      ("Cost", jsGet item "Cost"),
      ("Length", jsOr (jsGet item "Length") (.num 0)),
      ("Width", jsOr (jsGet item "Width") (.num 0)),
      ("Height", jsOr (jsGet item "Height") (.num 0)),
      ("ActualWeight", jsOr (jsGet item "ActualWeight") (.num 1)),
      ("EWayBillNo", jsOr (jsGet item "EWayBillNo") (jsOr (jsGet item "EwayBillNo") (.str "")))])

/-- `inf.Item.map(item => ...)` (line 245): calling `.map` on a non-array
is a TypeError, reading `.map` off `undefined`/`null` likewise. -/
def buildItems (inf : JSVal) : Except JsErr JSVal :=
  match getField inf "Item" with
  | .error e => .error e
  | .ok itemsV =>
    match itemsV with
    | .arr xs => (xs.mapM buildItem).map JSVal.arr
    | .undefV => .error (.typeErr "Cannot read properties of undefined (reading map)")
    | .null => .error (.typeErr "Cannot read properties of null (reading map)")
    | _ => .error (.typeErr "inf.Item.map is not a function")

/-- The `Delivery` object literal (lines 258-271); as with `buildPickup`,
every `inf.Delivery.X` read throws exactly when the first
(`inf.Delivery.Mobile`) does. -/
def buildDelivery (inf : JSVal) : Except JsErr JSVal :=
  match getField inf "Delivery" with
  | .error e => .error e
  | .ok dv =>
  match getField dv "Mobile" with
  | .error e => .error e
  | .ok mobile =>
    .ok (.obj [
      ("UniqueNo", jsOr mobile (.str "")),
      ("PersonName", jsGet dv "PersonName"),
      ("Mobile", mobile),
      ("AddressType", jsOr (jsGet dv "AddressType") (.str "Home")),
      ("HouseNo", jsOr (jsGet dv "HouseNo") (.str "")),
      ("Landmark", jsOr (jsGet dv "Landmark") (.str "")),
      ("Address", jsGet dv "Address"),
      ("Lat", jsOr (jsGet dv "Lat") (.str "")),
      ("Lng", jsOr (jsGet dv "Lng") (.str "")),
      ("Pincode", jsGet dv "Pincode"),
      ("CashCollection", .num (parseFloatOr0 (jsGet dv "CashCollection"))),
      ("Comment", jsOr (jsGet dv "Comment") (.str ""))])

/-- One entry of `OrderDetails.map((od) => ...)` (lines 210-274).  The
source evaluates `od.Info` first (line 211); the remaining `od.X` reads
throw exactly when that one does, so they are pure `jsGet` reads, and the
nested `Pickup`/`Item`/`Delivery` literals are built in source order. -/
def buildDetail (od : JSVal) : Except JsErr JSVal :=
  match getField od "Info" with
  | .error e => .error e
  | .ok infoV =>
  let inf := if isArray infoV then jsIndex infoV 0 else infoV
  match buildPickup inf with
  | .error e => .error e
  | .ok pickup =>
  match buildItems inf with
  | .error e => .error e
  | .ok items =>
  match buildDelivery inf with
  | .error e => .error e
  | .ok delivery =>
    .ok (.obj [
      ("PreAWBNo", jsOr (jsGet od "PreAWBNo") (.str "")),
      ("ClientUniqueNo", jsGet od "ClientUniqueNo"),
      ("VehicleType", jsOr (jsGet od "VehicleType") (.str "Bike")),
      ("BrandName", jsOr (jsGet od "BrandName") (.str "")),
      ("OrderType", jsOr (jsGet od "OrderType") (.str "B2C")),
      ("InvoiceNo", jsOr (jsGet od "InvoiceNo") (.str "")),
      ("InvoiceUrl", jsOr (jsGet od "InvoiceUrl") (.str "")),
      ("InvoiceValue", jsOr (jsGet od "InvoiceValue") (.str "0.00")),
      ("EWAYBillNo", jsOr (jsGet od "EWAYBillNo") (.str "")),
      ("TotalActualWeight", .str (jsToString (jsGet od "TotalActualWeight"))),
      ("Info", .arr [.obj [("Pickup", pickup), ("Item", items), ("Delivery", delivery)]])])

/-- `OrderDetails.map((od) => ...)` of line 210 (the details array of the
built body): the first `buildDetail` failure propagates. -/
def buildDetails (orderDetails : JSVal) : Except JsErr JSVal :=
  match orderDetails with
  | .arr xs => (xs.mapM buildDetail).map JSVal.arr
  | v => .ok v

/-- `placeOrder(orderPayload)` (lines 188-283): the validation chain,
then the body builder, then the submission (modelled by the returned
`OutboundRequest`).  The source's sequential `if (...) throw` statements
are an else-chain here: after a JS throw nothing later executes. -/
def placeOrder (orderPayload : JSVal) : Except JsErr OutboundRequest :=
  match getField orderPayload "UserId" with
  | .error e => .error e
  | .ok userId =>
  match getField orderPayload "OrderDetails" with
  | .error e => .error e
  | .ok orderDetails =>
  if !truthy userId then .error (.jsError "placeOrder: UserId is required.")
  else if !isNonEmptyArr orderDetails then
    .error (.jsError "placeOrder: OrderDetails must be a non-empty array.")
  else
  let od := jsIndex orderDetails 0
  match getField od "ClientUniqueNo" with
  | .error e => .error e
  | .ok clientUniqueNo =>
  if !truthy clientUniqueNo then
    .error (.jsError "placeOrder: OrderDetails[0].ClientUniqueNo is required.")
  else
  match getField od "TotalActualWeight" with
  | .error e => .error e
  | .ok totalActualWeight =>
  if !truthy totalActualWeight then
    .error (.jsError "placeOrder: OrderDetails[0].TotalActualWeight is required.")
  else
  match getField od "Info" with
  | .error e => .error e
  | .ok infoV =>
  let infoEntry := if isArray infoV then jsIndex infoV 0 else infoV
  if !truthy infoEntry then
    .error (.jsError "placeOrder: OrderDetails[0].Info is required.")
  else
  match getField infoEntry "Pickup" with
  | .error e => .error e
  | .ok pickupV =>
  if !truthy pickupV then .error (.jsError "placeOrder: Info.Pickup is required.")
  else
  match getField infoEntry "Delivery" with
  | .error e => .error e
  | .ok deliveryV =>
  if !truthy deliveryV then .error (.jsError "placeOrder: Info.Delivery is required.")
  else
  match getField infoEntry "Item" with
  | .error e => .error e
  | .ok itemV =>
  if !isNonEmptyArr itemV then
    .error (.jsError "placeOrder: Info.Item must be a non-empty array.")
  else
  match buildDetails orderDetails with
  | .error e => .error e
  | .ok details =>
    .ok { path := "/backoffice/api/pikndel/place_order",
          version := "3.2",
          wrapInData := true,
          data := .obj [("UserId", .str (jsToString userId)), ("OrderDetails", details)] }

/-!
## orderRoutes.js — webhook receiver (lines 28-52 and 114-163)
-/

/-- An HTTP response produced by the route layer. -/
structure HttpResponse where
  status : Nat
  body : JSVal

/-- Result of the `verifyWebhookSecret` middleware: either the request
proceeds to the handler or an early response is sent. -/
inductive VerifyResult where
  | proceed
  | reject (resp : HttpResponse)

/-- JS truthiness of an environment / header value (`undefined` or the
empty string are falsy). -/
def envTruthy : Option String → Bool
  | none => false
  | some s => s != ""

/-- `verifyWebhookSecret` (orderRoutes.js lines 28-52): skip when no
secret is configured, reject 401 on a missing or mismatched
`x-pikndel-secret` header, else proceed. -/
def verifyWebhookSecret (expectedSecret incomingSecret : Option String) : VerifyResult :=
  if !envTruthy expectedSecret then .proceed
  else if !envTruthy incomingSecret then
    .reject ⟨401, .obj [("success", .bool false),
                        ("error", .str "Unauthorized: missing webhook secret header.")]⟩
  else if incomingSecret != expectedSecret then
    .reject ⟨401, .obj [("success", .bool false),
                        ("error", .str "Unauthorized: invalid webhook secret.")]⟩
  else .proceed

/-- A persisted Webhook Event row (models `WebhookResponse.create`,
src/models/WebhookResponse.js). -/
structure WebhookRecord where
  awbNo : JSVal
  shortCode : JSVal
  activity : JSVal
  timestamp : JSVal
  rawPayload : JSVal

/-- The fixed `STATUS_MAP` lookup table (orderRoutes.js lines 129-137). -/
def STATUS_MAP : List (String × String) :=
  [("NEW", "Order Created"),
   ("PCK", "Parcel Picked Up"),
   ("OFD", "Out for Delivery"),
   ("DLD", "Delivered"),
   ("RTO", "Return to Origin Initiated"),
   ("RTN", "Returned"),
   ("CAN", "Cancelled")]

/-- Association lookup on the status table. -/
def lookupStatus : List (String × String) → String → Option String
  | [], _ => none
  | (k, v) :: rest, key => if k == key then some v else lookupStatus rest key

/-- `STATUS_MAP[short_code] || short_code` (line 139): bracket access
stringifies the key; a miss yields `undefined`, which `||` replaces with
the raw code. -/
def readableStatus (shortCode : JSVal) : JSVal :=
  match lookupStatus STATUS_MAP (jsToString shortCode) with
  | some label => .str label
  | none => shortCode

/-- The `POST /pikndel/status` handler body after the secret middleware
(orderRoutes.js lines 114-163).  `persistOk` models whether
`WebhookResponse.create` succeeds; its failure is caught (lines 153-155)
and only logged.  Returns the response, the persisted rows, and the
status log line (line 140), which is the only place the translated label
goes. -/
def webhookStatusHandler (reqBody : JSVal) (persistOk : Bool)
    (records : List WebhookRecord) :
    HttpResponse × List WebhookRecord × List String :=
  let payload := jsOr reqBody (.obj [])
  let awbNo := jsGet payload "AWBNo"
  let shortCode := jsGet payload "short_code"
  let activity := jsGet payload "activity"
  let timestamp := jsGet payload "timestamp"
  let readable := readableStatus shortCode
  let logs := ["[PIKNDEL Webhook] Status: " ++ jsToString readable ++ " – " ++ jsToString activity]
  let records' :=
    if persistOk then records ++ [⟨awbNo, shortCode, activity, timestamp, payload⟩]
    else records
  (⟨200, .obj [("success", .bool true), ("message", .str "Webhook received and saved.")]⟩,
   records', logs)

/-- The full route: secret middleware, then the handler. -/
def pikndelStatusRoute (expectedSecret incomingSecret : Option String)
    (reqBody : JSVal) (persistOk : Bool) (records : List WebhookRecord) :
    HttpResponse × List WebhookRecord × List String :=
  match verifyWebhookSecret expectedSecret incomingSecret with
  | .reject resp => (resp, records, [])
  | .proceed => webhookStatusHandler reqBody persistOk records

/-!
## Sample payloads and navigation probes used by concrete theorems
-/

/-- A minimal valid pickup contact, extendable with extra fields. -/
def samplePickup (extra : List (String × JSVal)) : JSVal :=
  .obj ([("PersonName", .str "Sender"), ("Mobile", .str "9876543210"),
         ("Address", .str "22 MG Road"), ("Pincode", .str "400008")] ++ extra)

/-- A minimal valid delivery contact, extendable with extra fields. -/
def sampleDelivery (extra : List (String × JSVal)) : JSVal :=
  .obj ([("PersonName", .str "Receiver"), ("Mobile", .str "9123456789"),
         ("Address", .str "Kalkaji New Delhi"), ("Pincode", .str "110019")] ++ extra)

/-- A minimal item, extendable with extra fields. -/
def sampleItem (extra : List (String × JSVal)) : JSVal :=
  .obj ([("Qty", .num 1), ("Cost", .num 100)] ++ extra)

/-- A valid order-detail block with the given items and contact extras. -/
def sampleDetail (items : List JSVal) (pickupExtra deliveryExtra : List (String × JSVal)) : JSVal :=
  .obj [("ClientUniqueNo", .str "ORD-1"),
        ("TotalActualWeight", .str "1"),
        ("Info", .arr [.obj [("Pickup", samplePickup pickupExtra),
                             ("Item", .arr items),
                             ("Delivery", sampleDelivery deliveryExtra)]])]

/-- A payload with the given detail blocks under a fixed UserId. -/
def samplePayloadOf (details : List JSVal) : JSVal :=
  .obj [("UserId", .str "800"), ("OrderDetails", .arr details)]

/-- Probe: first `OrderDetails` entry of a built body. -/
def firstDetailOf (body : JSVal) : JSVal := jsIndex (jsGet body "OrderDetails") 0

/-- Probe: first `Info` entry of a built detail. -/
def firstInfoOf (detail : JSVal) : JSVal := jsIndex (jsGet detail "Info") 0

/-- Probe: first `Item` entry of a built body. -/
def firstItemOf (body : JSVal) : JSVal :=
  jsIndex (jsGet (firstInfoOf (firstDetailOf body)) "Item") 0

/-!
## Claim theorems
-/

/-- C9: `placeOrder`'s validation inspects only `OrderDetails[0]`, while the
body builder maps every element.  On a payload whose first detail block is
fully valid but whose second lacks `Info`, `placeOrder` raises a TypeError
(reading `Pickup` off `undefined`) during mapping instead of a
ValidationError; the same payload without the second block succeeds. -/
theorem placeOrder_secondDetail_typeError :
    placeOrder (samplePayloadOf [sampleDetail [sampleItem []] [] [],
                                 .obj [("ClientUniqueNo", .str "ORD-2")]]) =
      .error (.typeErr "Cannot read properties of undefined (reading Pickup)") ∧
    ∃ req, placeOrder (samplePayloadOf [sampleDetail [sampleItem []] [] []]) = .ok req :=
  ⟨rfl, ⟨_, rfl⟩⟩

/-- C3: a 401 provider response clears the cached token and fails
Unauthorized, and with a cleared cache no Authorization header is attached
to the next call; 400, 500, any unexpected status, and a transport failure
with no response all leave the cached token unchanged while failing with
their respective error. -/
theorem handlePikndelResponse_tokenLifecycle (tok data : JSVal) (path msg : String) (status : Nat) :
    (requestStep tok path (.response 401 data) = (.null, .error (.unauthorized data))) ∧
    (authorizationHeader true .null = none) ∧
    (requestStep tok path (.response 400 data) = (tok, .error (.badRequest data))) ∧
    (requestStep tok path (.response 500 data) = (tok, .error (.serverError data))) ∧
    (status ≠ 200 → status ≠ 400 → status ≠ 401 → status ≠ 500 →
      requestStep tok path (.response status data) = (tok, .error (.unexpected status data))) ∧
    ((requestStep tok path (.noResponse msg)).1 = tok ∧
      ∃ p m, (requestStep tok path (.noResponse msg)).2 = .error (.network p m)) := by
  refine ⟨rfl, rfl, rfl, rfl, ?_, rfl, ⟨path, _, rfl⟩⟩
  intro h200 h400 h401 h500
  simp [requestStep, handlePikndelResponse, h200, h400, h401, h500]

/-- Witness for C3 at a concrete unexpected status (404). -/
theorem handlePikndelResponse_tokenLifecycle_witness :
    requestStep (.str "tok") "/x" (.response 404 .null) =
      (.str "tok", .error (.unexpected 404 .null)) :=
  (handlePikndelResponse_tokenLifecycle (.str "tok") .null "/x" "m" 404).2.2.2.2.1
    (by decide) (by decide) (by decide) (by decide)

/-- C5: once the secret check has passed, the webhook endpoint responds
HTTP 200 with a success body whether or not persisting the record
succeeds, and a persistence failure leaves the store unchanged without
affecting the response. -/
theorem webhook_ack200_despite_persistFailure (expectedSecret incomingSecret : Option String)
    (body : JSVal) (records : List WebhookRecord) (persistOk : Bool)
    (h : verifyWebhookSecret expectedSecret incomingSecret = .proceed) :
    (pikndelStatusRoute expectedSecret incomingSecret body persistOk records).1.status = 200 ∧
    jsGet (pikndelStatusRoute expectedSecret incomingSecret body persistOk records).1.body "success" = .bool true ∧
    (pikndelStatusRoute expectedSecret incomingSecret body false records).2.1 = records := by
  simp [pikndelStatusRoute, h, webhookStatusHandler, jsGet, optChain, lookupField]

/-- Witness for C5: no secret configured, persistence failing, still 200. -/
theorem webhook_ack200_despite_persistFailure_witness :
    (pikndelStatusRoute none none .null false []).1.status = 200 ∧
    jsGet (pikndelStatusRoute none none .null false []).1.body "success" = .bool true ∧
    (pikndelStatusRoute none none .null false []).2.1 = ([] : List WebhookRecord) :=
  webhook_ack200_despite_persistFailure none none .null [] false rfl

/-- C6: with no configured secret the verification middleware lets every
request proceed; with a configured (truthy) secret, a missing or
mismatched `x-pikndel-secret` header gets a 401 response with a structured
`{success:false, error:<string>}` body and no Webhook Event record is
persisted. -/
theorem webhook_secretCheck (noSecret : Option String) (secret : String)
    (incomingSecret : Option String) (body : JSVal) (persistOk : Bool)
    (records : List WebhookRecord) :
    (envTruthy noSecret = false → verifyWebhookSecret noSecret incomingSecret = .proceed) ∧
    (envTruthy (some secret) = true →
      (envTruthy incomingSecret = false ∨
        (envTruthy incomingSecret = true ∧ incomingSecret ≠ some secret)) →
      (pikndelStatusRoute (some secret) incomingSecret body persistOk records).1.status = 401 ∧
      jsGet (pikndelStatusRoute (some secret) incomingSecret body persistOk records).1.body "success" = .bool false ∧
      isStr (jsGet (pikndelStatusRoute (some secret) incomingSecret body persistOk records).1.body "error") = true ∧
      (pikndelStatusRoute (some secret) incomingSecret body persistOk records).2.1 = records) := by
  constructor
  · intro h
    simp [verifyWebhookSecret, h]
  · intro hexp hbad
    rcases hbad with hmiss | ⟨hpres, hne⟩
    · simp [pikndelStatusRoute, verifyWebhookSecret, hexp, hmiss, jsGet, optChain, lookupField, isStr]
    · have hne' : (incomingSecret != some secret) = true := by
        simpa using hne
      simp [pikndelStatusRoute, verifyWebhookSecret, hexp, hpres, hne', jsGet, optChain, lookupField, isStr]

/-- Witness for C6: secret "s" configured, header absent. -/
theorem webhook_secretCheck_witness :
    (pikndelStatusRoute (some "s") none .null true []).1.status = 401 ∧
    jsGet (pikndelStatusRoute (some "s") none .null true []).1.body "success" = .bool false ∧
    isStr (jsGet (pikndelStatusRoute (some "s") none .null true []).1.body "error") = true ∧
    (pikndelStatusRoute (some "s") none .null true []).2.1 = ([] : List WebhookRecord) :=
  (webhook_secretCheck none "s" none .null true []).2 (by decide) (Or.inl (by decide))

/-- C10: for every accepted webhook push that persists, the stored Webhook
Event row carries the raw incoming `short_code` (and `AWBNo`, `activity`,
`timestamp`) together with the original payload verbatim; the
`readableStatus` translation never reaches the row, so the label is stored
only when it coincides with the raw code (unrecognized codes pass
through). -/
theorem webhook_persists_rawShortCode (body : JSVal) (records : List WebhookRecord) :
    ∃ r : WebhookRecord,
      (webhookStatusHandler body true records).2.1 = records ++ [r] ∧
      r.shortCode = jsGet (jsOr body (.obj [])) "short_code" ∧
      r.awbNo = jsGet (jsOr body (.obj [])) "AWBNo" ∧
      r.activity = jsGet (jsOr body (.obj [])) "activity" ∧
      r.timestamp = jsGet (jsOr body (.obj [])) "timestamp" ∧
      r.rawPayload = jsOr body (.obj []) :=
  ⟨_, rfl, rfl, rfl, rfl, rfl, rfl⟩

/-!
## Helper lemmas for symbolic evaluation of the embedded code
-/

/-- Bind on a successful `Except` computation. -/
theorem except_bind_ok {ε α β : Type} (a : α) (f : α → Except ε β) :
    (Except.ok a >>= f) = f a := rfl

/-- Bind short-circuits on a thrown error. -/
theorem except_bind_err {ε α β : Type} (e : ε) (f : α → Except ε β) :
    ((Except.error e : Except ε α) >>= f) = Except.error e := rfl

/-- Bind on `pure`. -/
theorem except_pure_bind {ε α β : Type} (a : α) (f : α → Except ε β) :
    ((pure a : Except ε α) >>= f) = f a := rfl

/-- Property access on a non-nullish value never throws and agrees with the
pure read `jsGet`. -/
theorem getField_eq_ok (v : JSVal) (k : String) (h : isNullish v = false) :
    getField v k = .ok (jsGet v k) := by
  cases v <;> simp_all [isNullish, getField, jsGet, optChain]

/-- Truthy values are not nullish. -/
theorem truthy_isNullish_false (v : JSVal) (h : truthy v = true) : isNullish v = false := by
  cases v <;> simp_all [truthy, isNullish]

/-- `undefined` is falsy. -/
theorem truthy_undef : truthy .undefV = false := rfl

/-- A cons-array passes the non-empty-array check. -/
theorem isNonEmptyArr_cons (x : JSVal) (xs : List JSVal) :
    isNonEmptyArr (.arr (x :: xs)) = true := by
  simp [isNonEmptyArr, isArray, arrLength]

/-- Indexing a cons-array at 0. -/
theorem jsIndex_cons_zero (x : JSVal) (xs : List JSVal) : jsIndex (.arr (x :: xs)) 0 = x := rfl

/-- C1: `placeOrder` validates in the fixed order UserId, OrderDetails,
ClientUniqueNo, TotalActualWeight, Info, Pickup, Delivery, Item,
short-circuiting on the first failing check: whenever the earlier checks
pass and the named field is missing, the result is the ValidationError
naming exactly that field, returned before any `OutboundRequest` (network
call) is produced. -/
theorem placeOrder_validationOrder (p od infoEntry : JSVal) (rest : List JSVal) :
    (isNullish p = false → jsGet p "UserId" = .undefV →
      placeOrder p = .error (.jsError "placeOrder: UserId is required.")) ∧
    (isNullish p = false → truthy (jsGet p "UserId") = true →
      isNonEmptyArr (jsGet p "OrderDetails") = false →
      placeOrder p = .error (.jsError "placeOrder: OrderDetails must be a non-empty array.")) ∧
    (isNullish p = false → truthy (jsGet p "UserId") = true →
      jsGet p "OrderDetails" = .arr (od :: rest) → isNullish od = false →
      jsGet od "ClientUniqueNo" = .undefV →
      placeOrder p = .error (.jsError "placeOrder: OrderDetails[0].ClientUniqueNo is required.")) ∧
    (isNullish p = false → truthy (jsGet p "UserId") = true →
      jsGet p "OrderDetails" = .arr (od :: rest) → isNullish od = false →
      truthy (jsGet od "ClientUniqueNo") = true →
      jsGet od "TotalActualWeight" = .undefV →
      placeOrder p = .error (.jsError "placeOrder: OrderDetails[0].TotalActualWeight is required.")) ∧
    (isNullish p = false → truthy (jsGet p "UserId") = true →
      jsGet p "OrderDetails" = .arr (od :: rest) → isNullish od = false →
      truthy (jsGet od "ClientUniqueNo") = true →
      truthy (jsGet od "TotalActualWeight") = true →
      (if isArray (jsGet od "Info") then jsIndex (jsGet od "Info") 0 else jsGet od "Info") = .undefV →
      placeOrder p = .error (.jsError "placeOrder: OrderDetails[0].Info is required.")) ∧
    (isNullish p = false → truthy (jsGet p "UserId") = true →
      jsGet p "OrderDetails" = .arr (od :: rest) → isNullish od = false →
      truthy (jsGet od "ClientUniqueNo") = true →
      truthy (jsGet od "TotalActualWeight") = true →
      (if isArray (jsGet od "Info") then jsIndex (jsGet od "Info") 0 else jsGet od "Info") = infoEntry →
      truthy infoEntry = true →
      jsGet infoEntry "Pickup" = .undefV →
      placeOrder p = .error (.jsError "placeOrder: Info.Pickup is required.")) ∧
    (isNullish p = false → truthy (jsGet p "UserId") = true →
      jsGet p "OrderDetails" = .arr (od :: rest) → isNullish od = false →
      truthy (jsGet od "ClientUniqueNo") = true →
      truthy (jsGet od "TotalActualWeight") = true →
      (if isArray (jsGet od "Info") then jsIndex (jsGet od "Info") 0 else jsGet od "Info") = infoEntry →
      truthy infoEntry = true →
      truthy (jsGet infoEntry "Pickup") = true →
      jsGet infoEntry "Delivery" = .undefV →
      placeOrder p = .error (.jsError "placeOrder: Info.Delivery is required.")) ∧
    (isNullish p = false → truthy (jsGet p "UserId") = true →
      jsGet p "OrderDetails" = .arr (od :: rest) → isNullish od = false →
      truthy (jsGet od "ClientUniqueNo") = true →
      truthy (jsGet od "TotalActualWeight") = true →
      (if isArray (jsGet od "Info") then jsIndex (jsGet od "Info") 0 else jsGet od "Info") = infoEntry →
      truthy infoEntry = true →
      truthy (jsGet infoEntry "Pickup") = true →
      truthy (jsGet infoEntry "Delivery") = true →
      isNonEmptyArr (jsGet infoEntry "Item") = false →
      placeOrder p = .error (.jsError "placeOrder: Info.Item must be a non-empty array.")) := by
  refine ⟨?_, ?_, ?_, ?_, ?_, ?_, ?_, ?_⟩
  · intro hp hU
    simp [placeOrder, getField_eq_ok _ _ hp, hU, truthy_undef]
  · intro hp hU hOD
    simp [placeOrder, getField_eq_ok _ _ hp, hU, hOD]
  · intro hp hU hOD hod hCU
    simp [placeOrder, getField_eq_ok _ _ hp, getField_eq_ok _ _ hod,
      hU, hOD, hCU, isNonEmptyArr_cons, jsIndex_cons_zero, truthy_undef]
  · intro hp hU hOD hod hCU hTW
    simp [placeOrder, getField_eq_ok _ _ hp, getField_eq_ok _ _ hod,
      hU, hOD, hCU, hTW, isNonEmptyArr_cons, jsIndex_cons_zero, truthy_undef]
  · intro hp hU hOD hod hCU hTW hInfo
    simp [placeOrder, getField_eq_ok _ _ hp, getField_eq_ok _ _ hod,
      hU, hOD, hCU, hTW, hInfo, isNonEmptyArr_cons, jsIndex_cons_zero, truthy_undef]
  · intro hp hU hOD hod hCU hTW hInfo hIE hPk
    have hie := truthy_isNullish_false infoEntry hIE
    simp [placeOrder, getField_eq_ok _ _ hp, getField_eq_ok _ _ hod, getField_eq_ok _ _ hie,
      hU, hOD, hCU, hTW, hInfo, hIE, hPk,
      isNonEmptyArr_cons, jsIndex_cons_zero, truthy_undef]
  · intro hp hU hOD hod hCU hTW hInfo hIE hPk hDv
    have hie := truthy_isNullish_false infoEntry hIE
    simp [placeOrder, getField_eq_ok _ _ hp, getField_eq_ok _ _ hod, getField_eq_ok _ _ hie,
      hU, hOD, hCU, hTW, hInfo, hIE, hPk, hDv,
      isNonEmptyArr_cons, jsIndex_cons_zero, truthy_undef]
  · intro hp hU hOD hod hCU hTW hInfo hIE hPk hDv hItem
    have hie := truthy_isNullish_false infoEntry hIE
    simp [placeOrder, getField_eq_ok _ _ hp, getField_eq_ok _ _ hod, getField_eq_ok _ _ hie,
      hU, hOD, hCU, hTW, hInfo, hIE, hPk, hDv, hItem,
      isNonEmptyArr_cons, jsIndex_cons_zero, truthy_undef]

/-- Witness for C1: a payload whose checks pass up to `Info.Pickup`, which
is absent, fails with exactly the Pickup ValidationError. -/
theorem placeOrder_validationOrder_witness :
    placeOrder (.obj [("UserId", .str "800"),
        ("OrderDetails", .arr [.obj [("ClientUniqueNo", .str "C1"),
          ("TotalActualWeight", .str "1"),
          ("Info", .arr [.obj [("Delivery", sampleDelivery [])]])]])]) =
      .error (.jsError "placeOrder: Info.Pickup is required.") :=
  (placeOrder_validationOrder
      (.obj [("UserId", .str "800"),
        ("OrderDetails", .arr [.obj [("ClientUniqueNo", .str "C1"),
          ("TotalActualWeight", .str "1"),
          ("Info", .arr [.obj [("Delivery", sampleDelivery [])]])]])])
      (.obj [("ClientUniqueNo", .str "C1"), ("TotalActualWeight", .str "1"),
        ("Info", .arr [.obj [("Delivery", sampleDelivery [])]])])
      (.obj [("Delivery", sampleDelivery [])]) []).2.2.2.2.2.1
    rfl rfl rfl rfl rfl rfl rfl rfl rfl

/-- Evaluation of `buildItem` away from the nullish (throwing) case. -/
theorem buildItem_eval (item : JSVal) (h : isNullish item = false) :
    buildItem item = .ok (.obj [
      ("Qty", jsGet item "Qty"),
      ("Type", jsOr (jsGet item "Type") (.str "Goods")),
      ("IsFragile", .str (jsToString (nullishOr (jsGet item "IsFragile") (.str "0")))),
      ("IsLiquid", .str (jsToString (nullishOr (jsGet item "IsLiquid") (.str "0")))),
      ("Name", jsOr (jsGet item "Name") .null),
      ("Cost", jsGet item "Cost"),
      ("Length", jsOr (jsGet item "Length") (.num 0)),
      ("Width", jsOr (jsGet item "Width") (.num 0)),
      ("Height", jsOr (jsGet item "Height") (.num 0)),
      ("ActualWeight", jsOr (jsGet item "ActualWeight") (.num 1)),
      ("EWayBillNo", jsOr (jsGet item "EWayBillNo") (jsOr (jsGet item "EwayBillNo") (.str "")))]) := by
  simp [buildItem, getField_eq_ok _ _ h]

/-- C4 counterexample: on a response whose first candidate `Data.Token` is
present but empty, the claim's "first present value" would cache `""`, but
the code's `||` chain skips the falsy value and caches the later `Token`
field `"abc"`. -/
theorem login_tokenLookup_counterexample :
    specFirstPresentToken (.obj [("Data", .obj [("Token", .str "")]), ("Token", .str "abc")]) =
      some (.str "") ∧
    loginExtractStep .null (.obj [("Data", .obj [("Token", .str "")]), ("Token", .str "abc")]) =
      (.str "abc", .ok (.str "abc")) ∧
    ("" : String) ≠ "abc" :=
  ⟨rfl, rfl, by decide⟩

/-- C4 amended: `login` tries `Data.Token`, `Token`, `token`,
`access_token` in exactly that order and takes the first truthy value (a
present but falsy candidate, such as an empty string, is skipped); if no
candidate is truthy it fails with the TokenMissing error and the cache is
left unchanged; on success the extracted value becomes the cached
token. -/
theorem login_tokenLookup_firstTruthy (response cachedToken : JSVal) :
    (extractToken response =
      (listFirstTruthy [optChain (optChain response "Data") "Token",
        optChain response "Token", optChain response "token",
        optChain response "access_token"]).getD (optChain response "access_token")) ∧
    (truthy (extractToken response) = true →
      loginExtractStep cachedToken response = (extractToken response, .ok (extractToken response))) ∧
    (truthy (extractToken response) = false →
      loginExtractStep cachedToken response =
        (cachedToken, .error (.jsError "Login succeeded but no JWT token was returned by PIKNDEL."))) := by
  refine ⟨?_, ?_, ?_⟩
  · simp only [extractToken, listFirstTruthy, jsOr]
    cases h1 : truthy (optChain (optChain response "Data") "Token") <;>
      cases h2 : truthy (optChain response "Token") <;>
        cases h3 : truthy (optChain response "token") <;>
          cases h4 : truthy (optChain response "access_token") <;>
            simp [List.find?, h1, h2, h3, h4]
  · intro h
    simp [loginExtractStep, h]
  · intro h
    simp [loginExtractStep, h]

/-- Witness for C4's amended theorem: a lowercase `token` field is found
third in the order and cached. -/
theorem login_tokenLookup_firstTruthy_witness :
    loginExtractStep .null (.obj [("token", .str "t1")]) = (.str "t1", .ok (.str "t1")) :=
  (login_tokenLookup_firstTruthy (.obj [("token", .str "t1")]) .null).2.1 rfl

/-- C7 counterexample: a valid payload whose item carries `IsFragile: true`
(a boolean) produces `"true"` in the built body — a string, but not `"0"`
or `"1"` as claimed. -/
theorem placeOrder_fragileFlag_counterexample :
    (placeOrder (samplePayloadOf [sampleDetail [sampleItem [("IsFragile", .bool true)]] [] []])).map
        (fun r => jsGet (firstItemOf r.data) "IsFragile") = .ok (.str "true") ∧
    ("true" : String) ≠ "0" ∧ ("true" : String) ≠ "1" :=
  ⟨rfl, by decide, by decide⟩

/-- C7 amended: the item flags are always JS-stringified with `"0"`
substituted for a nullish input, so absent/null, numeric 0/1 and string
"0"/"1" inputs all yield `"0"`/`"1"`, but other representations keep their
own string form (a boolean `true` becomes `"true"`). -/
theorem buildItem_flagStringCoercion (item : JSVal) (h : isNullish item = false) :
    (∃ s, (buildItem item).map (fun o => jsGet o "IsFragile") = .ok (.str s)) ∧
    (jsGet item "IsFragile" = .undefV →
      (buildItem item).map (fun o => jsGet o "IsFragile") = .ok (.str "0")) ∧
    (jsGet item "IsFragile" = .null →
      (buildItem item).map (fun o => jsGet o "IsFragile") = .ok (.str "0")) ∧
    (jsGet item "IsFragile" = .num 0 →
      (buildItem item).map (fun o => jsGet o "IsFragile") = .ok (.str "0")) ∧
    (jsGet item "IsFragile" = .num 1 →
      (buildItem item).map (fun o => jsGet o "IsFragile") = .ok (.str "1")) ∧
    (jsGet item "IsFragile" = .str "0" →
      (buildItem item).map (fun o => jsGet o "IsFragile") = .ok (.str "0")) ∧
    (jsGet item "IsFragile" = .str "1" →
      (buildItem item).map (fun o => jsGet o "IsFragile") = .ok (.str "1")) ∧
    (jsGet item "IsFragile" = .bool true →
      (buildItem item).map (fun o => jsGet o "IsFragile") = .ok (.str "true")) ∧
    (∃ s, (buildItem item).map (fun o => jsGet o "IsLiquid") = .ok (.str s)) ∧
    (jsGet item "IsLiquid" = .bool true →
      (buildItem item).map (fun o => jsGet o "IsLiquid") = .ok (.str "true")) := by
  rw [buildItem_eval item h]
  refine ⟨⟨_, rfl⟩, ?_, ?_, ?_, ?_, ?_, ?_, ?_, ⟨_, rfl⟩, ?_⟩ <;>
    (intro hv; rw [hv]; rfl)

/-- Witness for C7's amended theorem at a concrete item (`IsFragile: 1`). -/
theorem buildItem_flagStringCoercion_witness :
    (buildItem (sampleItem [("IsFragile", .num 1)])).map (fun o => jsGet o "IsFragile") =
      .ok (.str "1") :=
  (buildItem_flagStringCoercion (sampleItem [("IsFragile", .num 1)]) rfl).2.2.2.2.1 rfl

/-- C8 counterexample: an item whose `EWayBillNo` field is present (as the
empty string) alongside `EwayBillNo: "EB2"` produces `"EB2"`, though the
claim's "taken from EWayBillNo if present" reading requires `""`. -/
theorem placeOrder_ewayAlias_counterexample :
    hasField (sampleItem [("EWayBillNo", .str ""), ("EwayBillNo", .str "EB2")]) "EWayBillNo" = true ∧
    (placeOrder (samplePayloadOf [sampleDetail
        [sampleItem [("EWayBillNo", .str ""), ("EwayBillNo", .str "EB2")]] [] []])).map
      (fun r => jsGet (firstItemOf r.data) "EWayBillNo") = .ok (.str "EB2") ∧
    ("EB2" : String) ≠ "" :=
  ⟨rfl, rfl, by decide⟩

/-- A two-step `||` chain picks the first truthy operand, else the final
default. -/
theorem jsOr_firstTruthy2 (a b c : JSVal) :
    jsOr a (jsOr b c) = (listFirstTruthy [a, b]).getD c := by
  simp only [listFirstTruthy, List.find?, jsOr]
  cases h1 : truthy a <;> cases h2 : truthy b <;> simp [h1, h2]

/-- C8 amended: the outgoing `EWayBillNo` is the first truthy (non-empty)
of the input's `EWayBillNo` then `EwayBillNo` spellings, and the empty
string when neither is truthy — both spellings are accepted aliases, but
selection is by truthiness, not mere presence. -/
theorem buildItem_ewayAlias (item : JSVal) (h : isNullish item = false) :
    (buildItem item).map (fun o => jsGet o "EWayBillNo") =
      .ok ((listFirstTruthy [jsGet item "EWayBillNo", jsGet item "EwayBillNo"]).getD (.str "")) := by
  rw [buildItem_eval item h, ← jsOr_firstTruthy2]
  rfl

/-- Witness for C8's amended theorem: only the `EwayBillNo` spelling is
supplied and it is selected. -/
theorem buildItem_ewayAlias_witness :
    (buildItem (sampleItem [("EwayBillNo", .str "EB9")])).map (fun o => jsGet o "EWayBillNo") =
      .ok (.str "EB9") :=
  buildItem_ewayAlias (sampleItem [("EwayBillNo", .str "EB9")]) rfl

/-- Evaluation of `buildPickup` away from the throwing cases. -/
theorem buildPickup_eval (inf : JSVal) (h1 : isNullish inf = false)
    (h2 : isNullish (jsGet inf "Pickup") = false) :
    buildPickup inf = .ok (.obj [
      ("UniqueNo", jsOr (jsGet (jsGet inf "Pickup") "Mobile") (.str "")),
      ("PersonName", jsGet (jsGet inf "Pickup") "PersonName"),
      ("Mobile", jsGet (jsGet inf "Pickup") "Mobile"),
      ("AddressType", jsOr (jsGet (jsGet inf "Pickup") "AddressType") (.str "Home")),
      ("HouseNo", jsOr (jsGet (jsGet inf "Pickup") "HouseNo") (.str "")),
      ("Landmark", jsOr (jsGet (jsGet inf "Pickup") "Landmark") (.str "")),
      ("Address", jsGet (jsGet inf "Pickup") "Address"),
      ("Lat", jsOr (jsGet (jsGet inf "Pickup") "Lat") (.str "")),
      ("Lng", jsOr (jsGet (jsGet inf "Pickup") "Lng") (.str "")),
      ("Pincode", jsGet (jsGet inf "Pickup") "Pincode"),
      ("CashPaid", jsOr (jsGet (jsGet inf "Pickup") "CashPaid") (.str "0")),
      ("CashCollection", jsOr (jsGet (jsGet inf "Pickup") "CashCollection") (.str "0")),
      ("Comment", jsOr (jsGet (jsGet inf "Pickup") "Comment") (.str "")),
      ("PickupDate", jsOr (jsGet (jsGet inf "Pickup") "PickupDate") (.str "")),
      ("PickupSlot", jsOr (jsGet (jsGet inf "Pickup") "PickupSlot") (.str "")),
      ("RTOName", jsOr (jsGet (jsGet inf "Pickup") "RTOName") (jsGet (jsGet inf "Pickup") "PersonName")),
      ("RTOMobile", jsOr (jsGet (jsGet inf "Pickup") "RTOMobile") (jsGet (jsGet inf "Pickup") "Mobile")),
      ("RTOAddr", jsOr (jsGet (jsGet inf "Pickup") "RTOAddr") (jsGet (jsGet inf "Pickup") "Address")),
      ("RTOPincode", jsOr (jsGet (jsGet inf "Pickup") "RTOPincode") (jsGet (jsGet inf "Pickup") "Pincode"))]) := by
  simp [buildPickup, getField_eq_ok _ _ h1, getField_eq_ok _ _ h2]

/-- Evaluation of `buildDelivery` away from the throwing cases. -/
theorem buildDelivery_eval (inf : JSVal) (h1 : isNullish inf = false)
    (h2 : isNullish (jsGet inf "Delivery") = false) :
    buildDelivery inf = .ok (.obj [
      ("UniqueNo", jsOr (jsGet (jsGet inf "Delivery") "Mobile") (.str "")),
      ("PersonName", jsGet (jsGet inf "Delivery") "PersonName"),
      ("Mobile", jsGet (jsGet inf "Delivery") "Mobile"),
      ("AddressType", jsOr (jsGet (jsGet inf "Delivery") "AddressType") (.str "Home")),
      ("HouseNo", jsOr (jsGet (jsGet inf "Delivery") "HouseNo") (.str "")),
      ("Landmark", jsOr (jsGet (jsGet inf "Delivery") "Landmark") (.str "")),
      ("Address", jsGet (jsGet inf "Delivery") "Address"),
      ("Lat", jsOr (jsGet (jsGet inf "Delivery") "Lat") (.str "")),
      ("Lng", jsOr (jsGet (jsGet inf "Delivery") "Lng") (.str "")),
      ("Pincode", jsGet (jsGet inf "Delivery") "Pincode"),
      ("CashCollection", .num (parseFloatOr0 (jsGet (jsGet inf "Delivery") "CashCollection"))),
      ("Comment", jsOr (jsGet (jsGet inf "Delivery") "Comment") (.str ""))]) := by
  simp [buildDelivery, getField_eq_ok _ _ h1, getField_eq_ok _ _ h2]

/-- C2 counterexample: a valid payload supplying `Pickup.CashCollection`
as the number 500 keeps it a number in the built body — the claim's
"Pickup.CashCollection is a string regardless of the input representation"
fails (`x || "0"` only substitutes when `x` is falsy). -/
theorem placeOrder_pickupCash_counterexample :
    (placeOrder (samplePayloadOf [sampleDetail [sampleItem []]
        [("CashCollection", .num 500)] []])).map
      (fun r => jsGet (jsGet (firstInfoOf (firstDetailOf r.data)) "Pickup") "CashCollection") =
      .ok (.num 500) ∧
    isStr (.num 500) = false :=
  ⟨rfl, rfl⟩

/-- C2 amended: `Delivery.CashCollection` is always a number
(`parseFloat(x) || 0`); `Pickup.CashCollection` and `Pickup.CashPaid` are
strings when the input supplies them as strings or leaves them falsy
(absent or numeric 0 become `"0"`), but a truthy number input passes
through as a number. -/
theorem placeOrder_cashCollection_types (inf : JSVal)
    (hinf : isNullish inf = false)
    (hpk : isNullish (jsGet inf "Pickup") = false)
    (hdv : isNullish (jsGet inf "Delivery") = false) :
    (∃ n : Int, (buildDelivery inf).map (fun o => jsGet o "CashCollection") = .ok (.num n)) ∧
    (∀ s : String, jsGet (jsGet inf "Pickup") "CashCollection" = .str s →
      ∃ t : String, (buildPickup inf).map (fun o => jsGet o "CashCollection") = .ok (.str t)) ∧
    (jsGet (jsGet inf "Pickup") "CashCollection" = .undefV →
      (buildPickup inf).map (fun o => jsGet o "CashCollection") = .ok (.str "0")) ∧
    (jsGet (jsGet inf "Pickup") "CashCollection" = .num 0 →
      (buildPickup inf).map (fun o => jsGet o "CashCollection") = .ok (.str "0")) ∧
    (∀ n : Int, n ≠ 0 → jsGet (jsGet inf "Pickup") "CashCollection" = .num n →
      (buildPickup inf).map (fun o => jsGet o "CashCollection") = .ok (.num n)) ∧
    (∀ s : String, jsGet (jsGet inf "Pickup") "CashPaid" = .str s →
      ∃ t : String, (buildPickup inf).map (fun o => jsGet o "CashPaid") = .ok (.str t)) ∧
    (jsGet (jsGet inf "Pickup") "CashPaid" = .undefV →
      (buildPickup inf).map (fun o => jsGet o "CashPaid") = .ok (.str "0")) ∧
    (∀ n : Int, n ≠ 0 → jsGet (jsGet inf "Pickup") "CashPaid" = .num n →
      (buildPickup inf).map (fun o => jsGet o "CashPaid") = .ok (.num n)) := by
  rw [buildPickup_eval inf hinf hpk]
  refine ⟨?_, ?_, ?_, ?_, ?_, ?_, ?_, ?_⟩
  · rw [buildDelivery_eval inf hinf hdv]
    exact ⟨_, rfl⟩
  · intro s hs
    rw [hs]
    by_cases hse : s = ""
    · subst hse
      exact ⟨"0", rfl⟩
    · refine ⟨s, ?_⟩
      have ht : truthy (.str s) = true := by simp [truthy, hse]
      simp [Except.map, jsGet, optChain, lookupField, jsOr, ht]
  · intro h0
    rw [h0]
    rfl
  · intro h0
    rw [h0]
    rfl
  · intro n hn hv
    rw [hv]
    have ht : truthy (.num n) = true := by simp [truthy, hn]
    simp [Except.map, jsGet, optChain, lookupField, jsOr, ht]
  · intro s hs
    rw [hs]
    by_cases hse : s = ""
    · subst hse
      exact ⟨"0", rfl⟩
    · refine ⟨s, ?_⟩
      have ht : truthy (.str s) = true := by simp [truthy, hse]
      simp [Except.map, jsGet, optChain, lookupField, jsOr, ht]
  · intro h0
    rw [h0]
    rfl
  · intro n hn hv
    rw [hv]
    have ht : truthy (.num n) = true := by simp [truthy, hn]
    simp [Except.map, jsGet, optChain, lookupField, jsOr, ht]

/-- Witness for C2's amended theorem at a concrete info entry with both
cash fields left absent. -/
theorem placeOrder_cashCollection_types_witness :
    (∃ n : Int, (buildDelivery (.obj [("Pickup", samplePickup []), ("Delivery", sampleDelivery [])])).map
      (fun o => jsGet o "CashCollection") = .ok (.num n)) ∧
    (buildPickup (.obj [("Pickup", samplePickup []), ("Delivery", sampleDelivery [])])).map
      (fun o => jsGet o "CashCollection") = .ok (.str "0") :=
  ⟨(placeOrder_cashCollection_types
      (.obj [("Pickup", samplePickup []), ("Delivery", sampleDelivery [])]) rfl rfl rfl).1,
   (placeOrder_cashCollection_types
      (.obj [("Pickup", samplePickup []), ("Delivery", sampleDelivery [])]) rfl rfl rfl).2.2.1 rfl⟩
